import Mathlib

/-!
Verification of the forum-thread notifier bot (src/bot.py).

The bot is embedded shallowly:
  - the process environment becomes an explicit `Env` record of optional strings;
  - Python exceptions become `Except BotError`, with the constructor recording
    the Python exception class and its message string;
  - Python `str.split(",")`, `str.strip()` and `int(...)` are modelled on
    `List Char` (ASCII whitespace and ASCII digit model; the Unicode digits and
    exotic whitespace Python would also accept never occur in channel-id
    configuration and are out of scope);
  - the `discord.Client` subclass becomes a `NotifierState` record, and the
    `on_thread_create` coroutine becomes a total function from the state, a
    channel-resolution oracle (`guild.get_channel`) and the thread event to the
    list of send operations and log records it performs.
-/

namespace Bot

/-- Python exception surface of bot.py: `RuntimeError` and `ValueError`,
each carrying its message. -/
inductive BotError where
  | runtimeError (msg : String)
  | valueError (msg : String)
deriving DecidableEq, Repr

/-- The process environment: the three variables bot.py reads via
`os.getenv`. `none` models an unset variable. -/
structure Env where
  discordBotToken : Option String
  forumChannelIds : Option String
  announceChannelId : Option String

/-- The fields of a `discord.Thread` that bot.py reads.  `ownerId` is
`Option Int` because `discord.Thread.owner_id` is optional. -/
structure Thread where
  id : Int
  name : String
  parentId : Int
  ownerId : Option Int
  guildId : Int

/-! ### Python string primitives (ASCII model) -/

/-- Python whitespace as stripped by `str.strip()` (ASCII part). -/
def pyIsSpace (c : Char) : Bool :=
  c = ' ' || c = '\t' || c = '\n' || c = '\r' || c = '\x0b' || c = '\x0c'

/-- `str.strip()`: drop whitespace from both ends. -/
def pyStripChars (cs : List Char) : List Char :=
  ((cs.dropWhile pyIsSpace).reverse.dropWhile pyIsSpace).reverse

/-- `str.split(",")`: split on every comma, keeping empty segments
(`"".split(",") == [""]`, `"a,,b".split(",") == ["a","","b"]`). -/
def splitOnComma : List Char → List (List Char)
  | [] => [[]]
  | c :: rest =>
    if c = ',' then [] :: splitOnComma rest
    else (c :: (splitOnComma rest).headD []) :: (splitOnComma rest).tail

/-- Tail of a Python integer-literal digit part: digits with single
underscores allowed between digits (`1_000` parses, `1__0` and `1_` do not). -/
def digitTail : List Char → Bool
  | [] => true
  | c :: rest =>
    if c = '_' then
      match rest with
      | [] => false
      | d :: r => d.isDigit && digitTail r
    else c.isDigit && digitTail rest

/-- A valid Python digit part: nonempty, starts with a digit, and its tail
has underscores only between digits. -/
def validDigitPart (cs : List Char) : Bool :=
  match cs with
  | [] => false
  | c :: rest => c.isDigit && digitTail rest

/-- Numeric value of a digit part, ignoring the grouping underscores. -/
def charsToNat (cs : List Char) : Nat :=
  (cs.filter (fun c => c ≠ '_')).foldl (fun n c => 10 * n + (c.toNat - '0'.toNat)) 0

/-- Python `int(s)` on an already-stripped string: optional sign followed by a
digit part; `none` models the `ValueError` Python raises otherwise. -/
def pyParseInt (cs : List Char) : Option Int :=
  match cs with
  | '-' :: rest => if validDigitPart rest then some (-(charsToNat rest : Int)) else none
  | '+' :: rest => if validDigitPart rest then some (charsToNat rest : Int) else none
  | _ => if validDigitPart cs then some (charsToNat cs : Int) else none

/-! ### Configuration loading (ensure_token, parse_forum_channel_ids,
load_channel_settings) -/

/-- Message of the `RuntimeError` raised by `ensure_token`. -/
def missingTokenMsg : String := "環境変数 DISCORD_BOT_TOKEN が設定されていません。"

/-- `ensure_token()`: `os.getenv("DISCORD_BOT_TOKEN")`, raising if the value
is falsy (unset or empty). -/
def ensure_token (env : Env) : Except BotError String :=
  match env.discordBotToken with
  | none => .error (.runtimeError missingTokenMsg)
  | some s => if s = "" then .error (.runtimeError missingTokenMsg) else .ok s

/-- Message of the `ValueError` raised on a non-numeric channel-id segment;
it quotes the stripped segment. -/
def invalidIdMsg (tok : String) : String :=
  "FORUM_CHANNEL_IDS に数値以外の値 \x27" ++ tok ++ "\x27 が含まれています。"

/-- Message of the `ValueError` raised when no segment yields an id. -/
def noValidIdsMsg : String := "FORUM_CHANNEL_IDS に有効なIDが一つもありません。"

/-- The `for chunk in raw_ids.split(",")` loop of `parse_forum_channel_ids`:
strip each chunk, skip empty ones, convert the rest with `int`, raising on the
first non-numeric chunk. -/
def parseChunks : List (List Char) → Except BotError (List Int)
  | [] => .ok []
  | chunk :: rest =>
    let stripped := pyStripChars chunk
    if stripped.isEmpty then parseChunks rest
    else
      match pyParseInt stripped with
      | some n => (parseChunks rest).map (fun ids => n :: ids)
      | none => .error (.valueError (invalidIdMsg (String.mk stripped)))

/-- `parse_forum_channel_ids(raw_ids)`: split on commas, parse every
non-empty stripped chunk, and raise if the resulting list is empty. -/
def parse_forum_channel_ids (raw : String) : Except BotError (List Int) :=
  match parseChunks (splitOnComma raw.toList) with
  | .error e => .error e
  | .ok ids => if ids.isEmpty then .error (.valueError noValidIdsMsg) else .ok ids

/-- Message of the `RuntimeError` raised when FORUM_CHANNEL_IDS is falsy. -/
def missingForumMsg : String :=
  "環境変数 FORUM_CHANNEL_IDS が設定されていません。カンマ区切りで指定してください。"

/-- Message of the `RuntimeError` raised when ANNOUNCE_CHANNEL_ID is falsy. -/
def missingAnnounceMsg : String := "環境変数 ANNOUNCE_CHANNEL_ID が設定されていません。"

/-- Message of the `ValueError` raised when ANNOUNCE_CHANNEL_ID is
non-numeric. -/
def invalidAnnounceMsg : String := "ANNOUNCE_CHANNEL_ID には数値チャンネルIDを設定してください。"

/-- `load_channel_settings()`: read FORUM_CHANNEL_IDS (raising if falsy),
parse it, then read and convert ANNOUNCE_CHANNEL_ID.  Python `int` strips
surrounding whitespace itself, hence the strip before `pyParseInt`. -/
def load_channel_settings (env : Env) : Except BotError (List Int × Int) :=
  match env.forumChannelIds with
  | none => .error (.runtimeError missingForumMsg)
  | some raw =>
    if raw = "" then .error (.runtimeError missingForumMsg)
    else
      match parse_forum_channel_ids raw with
      | .error e => .error e
      | .ok forumIds =>
        match env.announceChannelId with
        | none => .error (.runtimeError missingAnnounceMsg)
        | some a =>
          if a = "" then .error (.runtimeError missingAnnounceMsg)
          else
            match pyParseInt (pyStripChars a.toList) with
            | none => .error (.valueError invalidAnnounceMsg)
            | some announceId => .ok (forumIds, announceId)

/-! ### Notification formatting (format_notification) -/

/-- Placeholder used when the thread has no (truthy) owner id. -/
def unknownAuthor : String := "不明な作成者"

/-- The `thread_url` f-string of `format_notification`. -/
def threadUrl (t : Thread) : String :=
  "https://discord.com/channels/" ++ toString t.guildId ++ "/" ++ toString t.id

/-- The `thread_owner` conditional expression of `format_notification`:
Python truthiness makes both `None` and `0` fall to the placeholder. -/
def threadOwnerStr (ownerId : Option Int) : String :=
  match ownerId with
  | some o => if o = 0 then unknownAuthor else "<@" ++ toString o ++ ">"
  | none => unknownAuthor

/-- `format_notification(thread)`.  Note the source template puts no
separator between the thread name and the owner part. -/
def format_notification (t : Thread) : String :=
  "**新しいスレッドが作成されました**\n" ++ t.name ++ threadOwnerStr t.ownerId
    ++ "\n" ++ threadUrl t

/-! ### The notifier client and its on_thread_create handler -/

/-- Log levels used by the handler. -/
inductive LogLevel where
  | debug | info | error
deriving DecidableEq, Repr

/-- The immutable state of a `ForumThreadNotifier` after `__init__`: the
constructor turns the id sequence into a `frozenset`. -/
structure NotifierState where
  forumChannelIds : Finset Int
  announceChannelId : Int

/-- `ForumThreadNotifier(intents=..., forum_channel_ids=..., announce_channel_id=...)`. -/
def mkNotifier (forumChannelIds : List Int) (announceChannelId : Int) : NotifierState :=
  { forumChannelIds := forumChannelIds.toFinset
    announceChannelId := announceChannelId }

/-- The observable effects of one `on_thread_create` call: the `send` calls
issued (target channel id and message text) and the log records emitted. -/
structure HandlerResult where
  sends : List (Int × String)
  logs : List (LogLevel × String)
deriving DecidableEq, Repr

/-- Rendered `logger.debug` record for a filtered event. -/
def ignoreLogMsg (t : Thread) : String :=
  "Ignore thread " ++ t.name ++ " (id=" ++ toString t.id ++ ") because parent "
    ++ toString t.parentId ++ " is not monitored"

/-- Rendered `logger.error` record for a failed channel resolution. -/
def resolveErrorMsg (st : NotifierState) : String :=
  "Announce channel " ++ toString st.announceChannelId
    ++ " が取得できません。権限やIDを確認してください。"

/-- Rendered `logger.info` record for a delivered notification. -/
def notifiedLogMsg (t : Thread) : String :=
  "Notified new thread \x27" ++ t.name ++ "\x27 (id=" ++ toString t.id
    ++ ") in parent " ++ toString t.parentId

/-- `on_thread_create(thread)`.  `getChannel` is the
`thread.guild.get_channel` lookup; the handler body raises no exception and
is modelled as a total function into its effects. -/
def on_thread_create (st : NotifierState) (getChannel : Int → Option Int)
    (t : Thread) : HandlerResult :=
  if t.parentId ∉ st.forumChannelIds then
    { sends := [], logs := [(.debug, ignoreLogMsg t)] }
  else
    match getChannel st.announceChannelId with
    | none => { sends := [], logs := [(.error, resolveErrorMsg st)] }
    | some ch =>
      { sends := [(ch, format_notification t)]
        logs := [(.info, notifiedLogMsg t)] }

end Bot

namespace Bot

/-! ### Helper lemmas -/

/-- A mention token always starts with the characters of the mention sigil,
so it can never equal the unknown-author placeholder. -/
theorem mention_ne_unknownAuthor (s : String) : "<@" ++ s ++ ">" ≠ unknownAuthor := by
  intro h
  have hd : '<' :: '@' :: (s.data ++ ['>']) = ['不', '明', 'な', '作', '成', '者'] := by
    have h0 := congrArg String.data h
    rw [String.data_append, String.data_append] at h0
    exact h0
  injection hd with h1 _
  exact absurd h1 (by decide)

/-- The environment used for the worked configuration example. -/
def envC1 : Env := ⟨some "token", some "111,222, 222,333", some "42"⟩

/-! ### Claims about the formatter and configuration loading -/

/-- C1 (counterexample): for the channel-list input "111,222, 222,333" the
load operation does succeed, but the collection it returns still contains the
identifier 222 twice — duplicates do NOT collapse in the value returned by
`load_channel_settings`, contradicting the claim that the returned collection
contains each identifier exactly once. -/
theorem claim1_counterexample :
    ∃ ids announceId, load_channel_settings envC1 = .ok (ids, announceId) ∧
      List.count 222 ids ≠ 1 := by
  refine ⟨[111, 222, 222, 333], 42, by rfl, by decide⟩

/-- C1 (amended): for the channel-list input "111,222, 222,333" the load
operation succeeds with the list [111, 222, 222, 333] (whitespace trimmed,
duplicate retained); the duplicates collapse only when the notifier
constructor stores the ids as a frozenset, whose value is {111, 222, 333}. -/
theorem claim1_amended :
    parse_forum_channel_ids "111,222, 222,333" = .ok [111, 222, 222, 333] ∧
    load_channel_settings envC1 = .ok ([111, 222, 222, 333], 42) ∧
    (mkNotifier [111, 222, 222, 333] 42).forumChannelIds = ({111, 222, 333} : Finset Int) := by
  refine ⟨by rfl, by rfl, by decide⟩

/-- C6: on the thread {id 555, name "Hello", parent 10, owner 999, guild 1}
the formatted notification contains the literal mention "<@999>" and ends
with the deep-link suffix "/channels/1/555". -/
theorem claim6_format_example :
    (∃ p q, format_notification ⟨555, "Hello", 10, some 999, 1⟩ = p ++ "<@999>" ++ q) ∧
    ∃ p, format_notification ⟨555, "Hello", 10, some 999, 1⟩ = p ++ "/channels/1/555" := by
  refine ⟨⟨"**新しいスレッドが作成されました**\nHello",
          "\nhttps://discord.com/channels/1/555", by decide⟩,
         ⟨"**新しいスレッドが作成されました**\nHello<@999>\nhttps://discord.com", by decide⟩⟩

/-- C7: when the thread has no owner id, the notification contains the
unknown-author placeholder, the owner slot of the template is exactly that
placeholder, and that slot is not a mention token of any owner. -/
theorem claim7_no_owner (t : Thread) (h : t.ownerId = none) :
    (∃ p q, format_notification t = p ++ unknownAuthor ++ q) ∧
    threadOwnerStr t.ownerId = unknownAuthor ∧
    ∀ o : Int, threadOwnerStr t.ownerId ≠ "<@" ++ toString o ++ ">" := by
  refine ⟨⟨"**新しいスレッドが作成されました**\n" ++ t.name, "\n" ++ threadUrl t, ?_⟩, ?_, ?_⟩
  · simp [format_notification, threadOwnerStr, h, String.append_assoc]
  · simp [threadOwnerStr, h]
  · intro o
    rw [h]
    exact fun hcon => mention_ne_unknownAuthor (toString o) hcon.symm

/-- C7 witness at a concrete ownerless thread. -/
theorem claim7_no_owner_witness :
    (∃ p q, format_notification ⟨555, "Hello", 10, none, 1⟩ = p ++ unknownAuthor ++ q) ∧
    threadOwnerStr (Thread.ownerId ⟨555, "Hello", 10, none, 1⟩) = unknownAuthor ∧
    ∀ o : Int, threadOwnerStr (Thread.ownerId ⟨555, "Hello", 10, none, 1⟩) ≠ "<@" ++ toString o ++ ">" :=
  claim7_no_owner ⟨555, "Hello", 10, none, 1⟩ rfl

/-- C8: the formatter is deterministic — two thread records that agree on
all five fields produce identical output. Purity holds by construction: the
embedding of format_notification is a total function of the record. -/
theorem claim8_deterministic (t1 t2 : Thread) (hid : t1.id = t2.id)
    (hname : t1.name = t2.name) (hparent : t1.parentId = t2.parentId)
    (howner : t1.ownerId = t2.ownerId) (hguild : t1.guildId = t2.guildId) :
    format_notification t1 = format_notification t2 := by
  cases t1
  cases t2
  simp only at hid hname hparent howner hguild
  subst hid hname hparent howner hguild
  rfl

/-- C8 witness at two identical concrete threads. -/
theorem claim8_deterministic_witness :
    format_notification ⟨555, "Hello", 10, some 999, 1⟩ =
      format_notification ⟨555, "Hello", 10, some 999, 1⟩ :=
  claim8_deterministic ⟨555, "Hello", 10, some 999, 1⟩ ⟨555, "Hello", 10, some 999, 1⟩
    rfl rfl rfl rfl rfl

/-- C9: ensure_token fails with the missing-credential error when the token
variable is unset or empty, and returns the token unchanged otherwise. -/
theorem claim9_token (env : Env) :
    ((env.discordBotToken = none ∨ env.discordBotToken = some "") →
      ensure_token env = .error (.runtimeError missingTokenMsg)) ∧
    ∀ s, env.discordBotToken = some s → s ≠ "" → ensure_token env = .ok s := by
  constructor
  · rintro (h | h) <;> simp [ensure_token, h]
  · intro s hs hne
    simp [ensure_token, hs, hne]

/-- C9 witness: an unset token fails, a present token is returned as is. -/
theorem claim9_token_witness :
    ensure_token ⟨none, none, none⟩ = .error (.runtimeError missingTokenMsg) ∧
    ensure_token ⟨some "token", none, none⟩ = .ok "token" :=
  ⟨(claim9_token ⟨none, none, none⟩).1 (Or.inl rfl),
   (claim9_token ⟨some "token", none, none⟩).2 "token" rfl (by decide)⟩

/-- C10: an owner id that is present but 0 is falsy in Python, so the
formatter emits the unknown-author placeholder, not the mention "<@0>". -/
theorem claim10_zero_owner (t : Thread) (h : t.ownerId = some 0) :
    (∃ p q, format_notification t = p ++ unknownAuthor ++ q) ∧
    threadOwnerStr t.ownerId = unknownAuthor ∧
    unknownAuthor ≠ "<@0>" := by
  refine ⟨⟨"**新しいスレッドが作成されました**\n" ++ t.name, "\n" ++ threadUrl t, ?_⟩, ?_, by decide⟩
  · simp [format_notification, threadOwnerStr, h, String.append_assoc]
  · simp [threadOwnerStr, h]

/-- C10 witness at a concrete thread owned by id 0. -/
theorem claim10_zero_owner_witness :
    (∃ p q, format_notification ⟨555, "Hello", 10, some 0, 1⟩ = p ++ unknownAuthor ++ q) ∧
    threadOwnerStr (Thread.ownerId ⟨555, "Hello", 10, some 0, 1⟩) = unknownAuthor ∧
    unknownAuthor ≠ "<@0>" :=
  claim10_zero_owner ⟨555, "Hello", 10, some 0, 1⟩ rfl

end Bot

namespace Bot

/-! ### Claims about the on_thread_create handler -/

/-- C2: an event whose parent channel is not monitored produces no send and
nothing but the single debug log record — the handler returns after logging. -/
theorem claim2_unmonitored (st : NotifierState) (getChannel : Int → Option Int)
    (t : Thread) (h : t.parentId ∉ st.forumChannelIds) :
    on_thread_create st getChannel t =
      { sends := [], logs := [(LogLevel.debug, ignoreLogMsg t)] } := by
  simp [on_thread_create, h]

/-- C2 witness: parent 99 is not in the monitored set {10}. -/
theorem claim2_unmonitored_witness :
    on_thread_create (mkNotifier [10] 42) (fun i => some i) ⟨555, "Hello", 99, some 999, 1⟩ =
      { sends := [], logs := [(LogLevel.debug, ignoreLogMsg ⟨555, "Hello", 99, some 999, 1⟩)] } :=
  claim2_unmonitored (mkNotifier [10] 42) (fun i => some i) ⟨555, "Hello", 99, some 999, 1⟩
    (by decide)

/-- C3: a monitored event whose announcement channel cannot be resolved
produces no send and nothing but the single error log record; the handler is
a total function, so no exception escapes it. -/
theorem claim3_unresolved (st : NotifierState) (getChannel : Int → Option Int)
    (t : Thread) (hmem : t.parentId ∈ st.forumChannelIds)
    (hres : getChannel st.announceChannelId = none) :
    on_thread_create st getChannel t =
      { sends := [], logs := [(LogLevel.error, resolveErrorMsg st)] } := by
  simp [on_thread_create, hmem, hres]

/-- C3 witness: parent 10 is monitored and the lookup oracle resolves no
channel at all. -/
theorem claim3_unresolved_witness :
    on_thread_create (mkNotifier [10] 42) (fun _ => none) ⟨555, "Hello", 10, some 999, 1⟩ =
      { sends := [], logs := [(LogLevel.error, resolveErrorMsg (mkNotifier [10] 42))] } :=
  claim3_unresolved (mkNotifier [10] 42) (fun _ => none) ⟨555, "Hello", 10, some 999, 1⟩
    (by decide) rfl

end Bot

namespace Bot

/-! ### Lemmas about splitting and chunk parsing -/

/-- Splitting never yields an empty list of chunks. -/
theorem splitOnComma_ne_nil (cs : List Char) : splitOnComma cs ≠ [] := by
  cases cs with
  | nil => simp [splitOnComma]
  | cons c rest =>
    simp only [splitOnComma]
    split <;> simp

/-- Every character of every chunk comes from the input and is not a comma. -/
theorem mem_splitOnComma (cs : List Char) :
    ∀ chunk ∈ splitOnComma cs, ∀ c ∈ chunk, c ∈ cs ∧ c ≠ ',' := by
  induction cs with
  | nil =>
    intro chunk hchunk c hc
    simp [splitOnComma] at hchunk
    subst hchunk
    simp at hc
  | cons a rest ih =>
    intro chunk hchunk c hc
    simp only [splitOnComma] at hchunk
    by_cases ha : a = ','
    · rw [if_pos ha] at hchunk
      rcases List.mem_cons.mp hchunk with h | h
      · subst h
        simp at hc
      · obtain ⟨hmem, hne⟩ := ih chunk h c hc
        exact ⟨List.mem_cons_of_mem _ hmem, hne⟩
    · rw [if_neg ha] at hchunk
      have hhead : (splitOnComma rest).headD [] ∈ splitOnComma rest := by
        cases hsp : splitOnComma rest with
        | nil => exact absurd hsp (splitOnComma_ne_nil rest)
        | cons h0 t0 => simp
      rcases List.mem_cons.mp hchunk with h | h
      · subst h
        rcases List.mem_cons.mp hc with h1 | h1
        · subst h1
          exact ⟨List.mem_cons_self _ _, ha⟩
        · obtain ⟨hmem, hne⟩ := ih _ hhead c h1
          exact ⟨List.mem_cons_of_mem _ hmem, hne⟩
      · obtain ⟨hmem, hne⟩ := ih chunk (List.mem_of_mem_tail h) c hc
        exact ⟨List.mem_cons_of_mem _ hmem, hne⟩

/-- Stripping a list of whitespace characters leaves nothing. -/
theorem strip_nil_of_all_space {cs : List Char}
    (h : ∀ c ∈ cs, pyIsSpace c = true) : pyStripChars cs = [] := by
  have h1 : cs.dropWhile pyIsSpace = [] := List.dropWhile_eq_nil_iff.mpr h
  simp [pyStripChars, h1]

/-- The chunk loop accepts a list of chunks that all strip to empty and
collects no ids from it. -/
theorem parseChunks_ok_nil {l : List (List Char)}
    (h : ∀ chunk ∈ l, pyStripChars chunk = []) : parseChunks l = .ok [] := by
  induction l with
  | nil => rfl
  | cons chunk rest ih =>
    have h0 : pyStripChars chunk = [] := h chunk (List.mem_cons_self _ _)
    simp only [parseChunks, h0, List.isEmpty_nil, if_true]
    exact ih fun c hc => h c (List.mem_cons_of_mem _ hc)

/-- If some chunk strips to a non-empty non-numeric token, the chunk loop
raises the ValueError quoting the first such token. -/
theorem parseChunks_invalid {l : List (List Char)}
    (h : ∃ chunk ∈ l, pyStripChars chunk ≠ [] ∧ pyParseInt (pyStripChars chunk) = none) :
    ∃ tok, (∃ chunk ∈ l, pyStripChars chunk = tok ∧ tok ≠ [] ∧ pyParseInt tok = none) ∧
      parseChunks l = .error (.valueError (invalidIdMsg (String.mk tok))) := by
  induction l with
  | nil =>
    obtain ⟨chunk, hmem, _⟩ := h
    simp at hmem
  | cons chunk rest ih =>
    by_cases h0 : pyStripChars chunk = []
    · have hrest : ∃ c ∈ rest, pyStripChars c ≠ [] ∧ pyParseInt (pyStripChars c) = none := by
        obtain ⟨c, hc, hne, hp⟩ := h
        rcases List.mem_cons.mp hc with rfl | hc2
        · exact absurd h0 hne
        · exact ⟨c, hc2, hne, hp⟩
      obtain ⟨tok, ⟨c, hc, htok⟩, hp⟩ := ih hrest
      refine ⟨tok, ⟨c, List.mem_cons_of_mem _ hc, htok⟩, ?_⟩
      simp only [parseChunks, h0, List.isEmpty_nil, if_true]
      exact hp
    · have hemp : (pyStripChars chunk).isEmpty = false := by
        cases hsc : pyStripChars chunk with
        | nil => exact absurd hsc h0
        | cons x xs => rfl
      cases hpi : pyParseInt (pyStripChars chunk) with
      | none =>
        refine ⟨pyStripChars chunk, ⟨chunk, List.mem_cons_self _ _, rfl, h0, hpi⟩, ?_⟩
        simp only [parseChunks, hemp, Bool.false_eq_true, if_false, hpi]
      | some n =>
        have hrest : ∃ c ∈ rest, pyStripChars c ≠ [] ∧ pyParseInt (pyStripChars c) = none := by
          obtain ⟨c, hc, hne, hp⟩ := h
          rcases List.mem_cons.mp hc with rfl | hc2
          · rw [hpi] at hp
            exact absurd hp (by simp)
          · exact ⟨c, hc2, hne, hp⟩
        obtain ⟨tok, ⟨c, hc, htok⟩, hp⟩ := ih hrest
        refine ⟨tok, ⟨c, List.mem_cons_of_mem _ hc, htok⟩, ?_⟩
        simp only [parseChunks, hemp, Bool.false_eq_true, if_false, hpi, hp]
        rfl

end Bot

namespace Bot

/-- C4: when the channel-list variable is absent, empty, or consists only of
commas and whitespace, load fails — with the missing-variable error in the
absent/empty cases and the no-valid-ids error otherwise — and in no such
case does it return a configuration. -/
theorem claim4_empty_config (env : Env)
    (h : env.forumChannelIds = none ∨
      ∃ s, env.forumChannelIds = some s ∧ ∀ c ∈ s.toList, c = ',' ∨ pyIsSpace c = true) :
    (load_channel_settings env = .error (.runtimeError missingForumMsg) ∨
      load_channel_settings env = .error (.valueError noValidIdsMsg)) ∧
    ∀ ids announceId, load_channel_settings env ≠ .ok (ids, announceId) := by
  have hload : load_channel_settings env = .error (.runtimeError missingForumMsg) ∨
      load_channel_settings env = .error (.valueError noValidIdsMsg) := by
    rcases h with h | ⟨s, hs, hall⟩
    · left
      simp [load_channel_settings, h]
    · by_cases hempty : s = ""
      · left
        subst hempty
        simp [load_channel_settings, hs]
      · right
        have hchunks : ∀ chunk ∈ splitOnComma s.toList, pyStripChars chunk = [] := by
          intro chunk hchunk
          apply strip_nil_of_all_space
          intro c hc
          obtain ⟨hmem, hne⟩ := mem_splitOnComma s.toList chunk hchunk c hc
          rcases hall c hmem with h1 | h1
          · exact absurd h1 hne
          · exact h1
        have hparse : parse_forum_channel_ids s = .error (.valueError noValidIdsMsg) := by
          simp only [parse_forum_channel_ids]
          rw [parseChunks_ok_nil hchunks]
          rfl
        simp [load_channel_settings, hs, hempty, hparse]
  refine ⟨hload, ?_⟩
  intro ids announceId hcon
  rcases hload with h1 | h1 <;> rw [h1] at hcon <;> exact Except.noConfusion hcon

/-- C4 witness on the whitespace-and-commas-only list " , ,". -/
theorem claim4_empty_config_witness :
    (load_channel_settings ⟨some "token", some " , ,", some "42"⟩ =
        .error (.runtimeError missingForumMsg) ∨
      load_channel_settings ⟨some "token", some " , ,", some "42"⟩ =
        .error (.valueError noValidIdsMsg)) ∧
    ∀ ids announceId,
      load_channel_settings ⟨some "token", some " , ,", some "42"⟩ ≠ .ok (ids, announceId) :=
  claim4_empty_config ⟨some "token", some " , ,", some "42"⟩ (Or.inr ⟨" , ,", rfl, by decide⟩)

/-- C5: when some comma-separated segment strips to a non-empty token that
is not a valid integer, load fails with the ValueError whose message quotes
that (first such) trimmed token. -/
theorem claim5_invalid_token (env : Env) (raw : String)
    (h1 : env.forumChannelIds = some raw)
    (h2 : ∃ chunk ∈ splitOnComma raw.toList, pyStripChars chunk ≠ [] ∧
      pyParseInt (pyStripChars chunk) = none) :
    ∃ tok, (∃ chunk ∈ splitOnComma raw.toList, pyStripChars chunk = tok ∧ tok ≠ [] ∧
        pyParseInt tok = none) ∧
      load_channel_settings env = .error (.valueError (invalidIdMsg (String.mk tok))) := by
  have hraw : raw ≠ "" := by
    rintro rfl
    obtain ⟨chunk, hmem, hnz, _⟩ := h2
    have hmem' : chunk ∈ splitOnComma ([] : List Char) := hmem
    simp [splitOnComma] at hmem'
    subst hmem'
    exact hnz rfl
  obtain ⟨tok, hwit, hp⟩ := parseChunks_invalid h2
  have hparse : parse_forum_channel_ids raw =
      .error (.valueError (invalidIdMsg (String.mk tok))) := by
    simp only [parse_forum_channel_ids]
    rw [hp]
  refine ⟨tok, hwit, ?_⟩
  simp [load_channel_settings, h1, hraw, hparse]

/-- C5 witness on the channel list "123, abc, 456". -/
theorem claim5_invalid_token_witness :
    ∃ tok, (∃ chunk ∈ splitOnComma ("123, abc, 456").toList, pyStripChars chunk = tok ∧
        tok ≠ [] ∧ pyParseInt tok = none) ∧
      load_channel_settings ⟨some "token", some "123, abc, 456", some "42"⟩ =
        .error (.valueError (invalidIdMsg (String.mk tok))) :=
  claim5_invalid_token ⟨some "token", some "123, abc, 456", some "42"⟩ "123, abc, 456" rfl
    (by decide)

end Bot
